import Mathlib

/-!
Verification of the smartgarden simulation engine.

Shallow embedding of src/garden_env (plant.py, objects.py, simulator.py,
weather.py). Real-valued quantities are modelled as rationals; the
process-global pseudo-random source is modelled by passing each draw of
random.random() explicitly as a rational in [0, 1) and each draw of
random.randint(a, b) as a natural number in [a, b].
-/

/-! ### Plant model (src/garden_env/plant.py) -/

/-- Phenology: the growth-stage tag of a plant (plant.py, class Phenology). -/
inductive Phenology where
  | seedling
  | vegetative
  | flowering
  | harvestable
  | dormant
  | dead
deriving DecidableEq, Repr

/-- Species tag: the source expresses per-species behaviour as subclasses of
Plant (Lettuce, Spinach, Radish, SwissChard, Nasturtium); lettuce and spinach
use the base-class rules unchanged. -/
inductive Species where
  | lettuce
  | spinach
  | radish
  | swissChard
  | nasturtium
deriving DecidableEq, Repr

/-- Mutable state of one Plant instance together with its per-species
configuration constants (plant.py, Plant.__init__). The same record doubles as
the PlantStatus snapshot: get_status copies exactly these fields. -/
structure Plant where
  species : Species
  soil_moisture : ℚ
  nutrient_level : ℚ
  health : ℚ
  biomass : ℚ
  phenology : Phenology
  soil_threshold : ℚ
  nutrient_threshold : ℚ
  critical_soil : ℚ
  critical_nutrient : ℚ
  growth_rate_max : ℚ
  harvest_day : ℚ
  days_alive : ℕ
  step_count : ℕ
  stress_level : ℚ
  flower_stage_soil_threshold : ℚ
  flower_stage_day : ℕ
  is_flowering_stage : Bool
deriving DecidableEq, Repr

/-- Plant._update_phenology, including the SwissChard and Nasturtium overrides
(plant.py lines 88-104, 298-309, 325-344). Every variant first forces the dead
stage when health is not positive. -/
def Plant.update_phenology (p : Plant) : Plant :=
  match p.species with
  | Species.swissChard =>
      if p.health ≤ 0 then { p with phenology := Phenology.dead }
      else if p.days_alive < 10 then { p with phenology := Phenology.seedling }
      else if p.days_alive < 20 then { p with phenology := Phenology.vegetative }
      else { p with phenology := Phenology.harvestable }
  | Species.nasturtium =>
      if p.health ≤ 0 then { p with phenology := Phenology.dead }
      else if p.days_alive < 10 then
        { p with phenology := Phenology.seedling, is_flowering_stage := false }
      else if p.days_alive < 18 then
        { p with phenology := Phenology.vegetative, is_flowering_stage := false }
      else if p.days_alive < p.flower_stage_day then
        { p with phenology := Phenology.flowering, is_flowering_stage := false }
      else
        { p with phenology := Phenology.harvestable, is_flowering_stage := true,
                 soil_threshold := p.flower_stage_soil_threshold }
  | _ =>
      if p.health ≤ 0 then { p with phenology := Phenology.dead }
      else if p.days_alive < 7 then { p with phenology := Phenology.seedling }
      else if (p.days_alive : ℚ) < p.harvest_day * 0.7 then { p with phenology := Phenology.vegetative }
      else if (p.days_alive : ℚ) < p.harvest_day * 0.9 then { p with phenology := Phenology.flowering }
      else if (p.days_alive : ℚ) < p.harvest_day * 1.2 then { p with phenology := Phenology.harvestable }
      else { p with phenology := Phenology.dormant }

/-- Health delta of Plant._update_health_simple (plant.py lines 106-134); the
Radish override (lines 254-281) differs only in the two moisture penalties
(-3.0 / -0.5 instead of -5.0 / -1.0). -/
def Plant.health_change (p : Plant) : ℚ :=
  let hc : ℚ := 0
  let hc : ℚ :=
    if p.soil_moisture < p.critical_soil then
      hc - (if p.species = Species.radish then 3 else 5)
    else if p.soil_moisture < p.soil_threshold then
      hc - (if p.species = Species.radish then 0.5 else 1)
    else hc
  let hc : ℚ :=
    if p.nutrient_level < p.critical_nutrient then hc - 5
    else if p.nutrient_level < p.nutrient_threshold then hc - 1
    else hc
  let hc : ℚ := if p.nutrient_level > 1.2 then hc - 10 else hc
  let hc : ℚ := if p.soil_moisture > 1.0 then hc - 8 else hc
  if p.soil_moisture ≥ p.soil_threshold ∧ p.nutrient_level ≥ p.nutrient_threshold then hc + 3
  else if hc = 0 then hc + 1
  else hc

/-- Plant._update_health_simple (plant.py lines 106-141): apply the health
delta, clamp to [0, 100], then force the dead stage when health is not
positive. -/
def Plant.update_health_simple (p : Plant) : Plant :=
  let h : ℚ := p.health + p.health_change
  let h : ℚ := max 0 (min 100 h)
  let q : Plant := { p with health := h }
  if q.health ≤ 0 then { q with phenology := Phenology.dead } else q

/-- Plant._update_growth_simple (plant.py lines 143-175). -/
def Plant.update_growth_simple (p : Plant) : Plant :=
  if p.health ≤ 20 then p
  else
    let stage_factor : ℚ :=
      if p.phenology = Phenology.seedling then 0.6
      else if p.phenology = Phenology.harvestable then 0.3
      else if p.phenology = Phenology.dormant then 0
      else 1
    let condition_factor : ℚ :=
      if p.soil_moisture < p.critical_soil ∨ p.nutrient_level < p.critical_nutrient then 0.1
      else if p.soil_moisture < p.soil_threshold ∨ p.nutrient_level < p.nutrient_threshold then 0.5
      else 1
    let health_factor : ℚ := p.health / 100
    { p with biomass := p.biomass + p.growth_rate_max * stage_factor * condition_factor * health_factor }

/-- Plant._update_stress_simple (plant.py lines 177-198). -/
def Plant.update_stress_simple (p : Plant) : Plant :=
  let s1 : ℚ :=
    if p.soil_moisture < p.critical_soil then 0.9
    else if p.soil_moisture < p.soil_threshold then 0.4
    else 0
  let s2 : ℚ :=
    if p.nutrient_level < p.critical_nutrient then 0.9
    else if p.nutrient_level < p.nutrient_threshold then 0.4
    else 0
  { p with stress_level := (s1 + s2) / 2 }

/-- Authoritative soil values pushed into the plant on update (plant.py
update argument soil_state). -/
structure SoilInput where
  moisture : ℚ
  nutrients : ℚ
deriving DecidableEq, Repr

/-- First half of Plant.update (plant.py lines 73-78): set the step counters
and absorb the authoritative soil state. -/
def Plant.absorb (p : Plant) (soil : SoilInput) (step : ℕ) : Plant :=
  { p with step_count := step, days_alive := step / 8,
           soil_moisture := soil.moisture, nutrient_level := soil.nutrients }

/-- Plant.update (plant.py lines 61-86): set step counters, absorb the soil
state, then run phenology, health, growth and stress updates in order. The
returned Plant value is the PlantStatus snapshot. -/
def Plant.update (p : Plant) (soil : SoilInput) (step : ℕ) : Plant :=
  ((((p.absorb soil step).update_phenology).update_health_simple).update_growth_simple).update_stress_simple

/-- Plant.is_alive (plant.py lines 221-223). -/
def Plant.is_alive (p : Plant) : Bool :=
  decide (p.phenology ≠ Phenology.dead ∧ 0 < p.health)

/-! ### Basic lemmas about the plant update pipeline -/

theorem update_growth_simple_health (p : Plant) : p.update_growth_simple.health = p.health := by
  unfold Plant.update_growth_simple
  split <;> rfl

theorem update_growth_simple_phenology (p : Plant) :
    p.update_growth_simple.phenology = p.phenology := by
  unfold Plant.update_growth_simple
  split <;> rfl

theorem update_stress_simple_health (p : Plant) : p.update_stress_simple.health = p.health := rfl

theorem update_stress_simple_phenology (p : Plant) :
    p.update_stress_simple.phenology = p.phenology := rfl

theorem update_health_simple_health (p : Plant) :
    p.update_health_simple.health = max 0 (min 100 (p.health + p.health_change)) := by
  unfold Plant.update_health_simple
  dsimp only
  split <;> rfl

theorem update_health_simple_dead_of_nonpos (p : Plant)
    (h : p.update_health_simple.health ≤ 0) :
    p.update_health_simple.phenology = Phenology.dead := by
  unfold Plant.update_health_simple at h ⊢
  dsimp only at h ⊢
  split at h
  · rename_i hc
    rw [if_pos hc]
  · rename_i hc
    rw [if_neg hc]
    exact absurd h hc

theorem update_health_simple_keeps_dead (p : Plant) (h : p.phenology = Phenology.dead) :
    p.update_health_simple.phenology = Phenology.dead := by
  unfold Plant.update_health_simple
  dsimp only
  split
  · rfl
  · exact h

theorem update_phenology_dead_of_nonpos (p : Plant) (h : p.health ≤ 0) :
    p.update_phenology.phenology = Phenology.dead := by
  unfold Plant.update_phenology
  rcases hs : p.species <;> simp [hs, if_pos h]

theorem update_phenology_health (q : Plant) : q.update_phenology.health = q.health := by
  unfold Plant.update_phenology
  rcases hs : q.species <;> dsimp only <;> split_ifs <;> rfl

theorem plant_update_health (p : Plant) (soil : SoilInput) (step : ℕ) :
    (p.update soil step).health =
      max 0 (min 100 (p.health + ((p.absorb soil step).update_phenology).health_change)) := by
  unfold Plant.update
  rw [update_stress_simple_health, update_growth_simple_health, update_health_simple_health,
    update_phenology_health]
  rfl

/-! ### Concrete plant trajectories

A lettuce-like configuration (base-class rules; the exact constants play the
role of the config.json species entries, which are external input). Starving
the plant of water and nutrients costs 10 health per step, so after ten steps
from full health the plant is dead; rich soil then restores 3 health per step
while the phenology is still dead, and the following update re-enters a live
phenology. -/

def lettucePlant : Plant :=
  { species := Species.lettuce, soil_moisture := 0.5, nutrient_level := 0.5,
    health := 100, biomass := 0.1, phenology := Phenology.seedling,
    soil_threshold := 0.4, nutrient_threshold := 0.4,
    critical_soil := 0.2, critical_nutrient := 0.2,
    growth_rate_max := 0.1, harvest_day := 30,
    days_alive := 0, step_count := 0, stress_level := 0,
    flower_stage_soil_threshold := 0.5, flower_stage_day := 25,
    is_flowering_stage := false }

def drySoil : SoilInput := { moisture := 0, nutrients := 0 }

def richSoil : SoilInput := { moisture := 0.8, nutrients := 0.8 }

def starvedPlant : Plant :=
  (List.range 10).foldl (fun p i => p.update drySoil i) lettucePlant

def revivedOncePlant : Plant := starvedPlant.update richSoil 10

def revivedTwicePlant : Plant := revivedOncePlant.update richSoil 11

def deadLettuce : Plant := { lettucePlant with health := 0, phenology := Phenology.dead }

set_option maxRecDepth 100000 in
/-- C1 counterexample: dead is not absorbing. A plant driven to the dead
phenology by ten update calls on dry soil (health reaches 0) regains health
under rich soil while still dead, and on the following update call its
phenology returns to the live value seedling. -/
theorem dead_phenology_not_absorbing_cex :
    starvedPlant.phenology = Phenology.dead ∧
    revivedOncePlant.phenology = Phenology.dead ∧
    revivedTwicePlant.phenology = Phenology.seedling :=
  of_decide_eq_true (by with_unfolding_all rfl)

/-- C1 (amended): a plant whose health is ≤ 0 at the start of an update is in
the dead phenology after that update; the dead stage persists exactly while
health stays ≤ 0 at each update entry. (It is not absorbing: the health update
applies its recovery bonus regardless of death, so a dead plant whose health
climbs back above 0 re-enters a live phenology on the following update.) -/
theorem update_dead_while_health_nonpos (p : Plant) (soil : SoilInput) (step : ℕ)
    (h : p.health ≤ 0) :
    (p.update soil step).phenology = Phenology.dead := by
  unfold Plant.update
  rw [update_stress_simple_phenology, update_growth_simple_phenology]
  apply update_health_simple_keeps_dead
  apply update_phenology_dead_of_nonpos
  exact h

theorem update_dead_while_health_nonpos_witness :
    deadLettuce.health ≤ 0 ∧ (deadLettuce.update richSoil 3).phenology = Phenology.dead :=
  ⟨le_refl 0, update_dead_while_health_nonpos deadLettuce richSoil 3 (le_refl 0)⟩

set_option maxRecDepth 100000 in
/-- C2 counterexample: the snapshot invariant phenology = dead ↔ health ≤ 0
fails. On the update where a dead plant receives rich soil, its health climbs
to 3 while its phenology snapshot is still dead. -/
theorem dead_snapshot_with_positive_health_cex :
    ¬(revivedOncePlant.phenology = Phenology.dead ↔ revivedOncePlant.health ≤ 0) :=
  of_decide_eq_true (by with_unfolding_all rfl)

/-- C2 (amended): after every update call, health lies in [0, 100], and
health ≤ 0 implies that the phenology snapshot is dead. The converse
implication does not hold on the step where a dead plant's health recovers
above 0 (its snapshot stays dead until the next update). -/
theorem update_health_bounds_and_dead (p : Plant) (soil : SoilInput) (step : ℕ) :
    0 ≤ (p.update soil step).health ∧ (p.update soil step).health ≤ 100 ∧
      ((p.update soil step).health ≤ 0 → (p.update soil step).phenology = Phenology.dead) := by
  have hh : (p.update soil step).health =
      ((p.absorb soil step).update_phenology).update_health_simple.health := by
    unfold Plant.update
    rw [update_stress_simple_health, update_growth_simple_health]
  have hp : (p.update soil step).phenology =
      ((p.absorb soil step).update_phenology).update_health_simple.phenology := by
    unfold Plant.update
    rw [update_stress_simple_phenology, update_growth_simple_phenology]
  refine ⟨?_, ?_, ?_⟩
  · rw [hh, update_health_simple_health]
    exact le_max_left _ _
  · rw [hh, update_health_simple_health]
    exact max_le (by norm_num) (min_le_left _ _)
  · intro hle
    rw [hp]
    apply update_health_simple_dead_of_nonpos
    rw [hh] at hle
    exact hle

theorem update_health_bounds_and_dead_witness :
    (0 ≤ (deadLettuce.update drySoil 0).health ∧
      (deadLettuce.update drySoil 0).health ≤ 100) ∧
    (deadLettuce.update drySoil 0).phenology = Phenology.dead :=
  ⟨⟨(update_health_bounds_and_dead deadLettuce drySoil 0).1,
    (update_health_bounds_and_dead deadLettuce drySoil 0).2.1⟩,
    (update_health_bounds_and_dead deadLettuce drySoil 0).2.2
      (of_decide_eq_true (by with_unfolding_all rfl))⟩

/-! ### Weather state (src/garden_env/weather.py) and device action log records -/

/-- WeatherState (weather.py lines 8-14). -/
structure WeatherState where
  temperature : ℚ
  is_raining : Bool
  rainfall_amount : ℚ
  step : ℕ
deriving DecidableEq, Repr

/-- One logged device action, as assembled both by DeviceManager
(objects.py lines 285-292, 301-308) and by
GardenSimulator._execute_device_actions (simulator.py lines 614-620,
630-636): pot id, step, requested magnitude, actual effect and success flag
(success means the actual effect was positive). -/
structure DeviceAction where
  pot_id : ℕ
  step : ℕ
  requested : ℚ
  actual_effect : ℚ
  success : Bool
deriving DecidableEq, Repr

/-! ### Soil model (src/garden_env/simulator.py, class SoilManager) -/

/-- SoilState (simulator.py lines 15-20). -/
structure SoilState where
  moisture : ℚ
  nutrients : ℚ
  pot_id : ℕ
deriving DecidableEq, Repr

/-- Configuration constants the soil update reads (simulator.py lines 50-57). -/
structure SoilConfig where
  evaporation_rate : ℚ
  nutrient_consumption_rate : ℚ
deriving DecidableEq, Repr

/-- Accumulation of actual effects of logged device actions that target the
given pot and succeeded (simulator.py lines 100-103 and 127-130: the loop adds
actual_effect whenever pot_id matches and actual_effect > 0). -/
def pot_effect_sum (actions : List DeviceAction) (pot : ℕ) : ℚ :=
  actions.foldl
    (fun acc a => if a.pot_id = pot ∧ a.actual_effect > 0 then acc + a.actual_effect else acc) 0

/-- SoilManager._update_moisture_simple (simulator.py lines 75-108): base
evaporation scaled by a temperature factor, plant transpiration for a live
plant, fixed rainfall input, irrigation from successful watering actions,
then clamp to [0, 1.3]. -/
def update_moisture_simple (cfg : SoilConfig) (soil : SoilState) (weather : WeatherState)
    (water_actions : List DeviceAction) (plant : Option Plant) : SoilState :=
  let base_consumption := cfg.evaporation_rate
  let temp_factor : ℚ := 1 + max 0 ((weather.temperature - 25) * 0.02)
  let plant_consumption : ℚ :=
    match plant with
    | some pl => if pl.is_alive then 0.01 * (pl.biomass / 5) * (pl.health / 100) else 0
    | none => 0
  let total_consumption := base_consumption * temp_factor + plant_consumption
  let rainfall_input : ℚ := if weather.is_raining then 0.15 else 0
  let irrigation := pot_effect_sum water_actions soil.pot_id
  let moisture_change := rainfall_input + irrigation - total_consumption
  { soil with moisture := max 0 (min 1.3 (soil.moisture + moisture_change)) }

/-- SoilManager._update_nutrients_simple (simulator.py lines 110-135): plant
uptake for a live plant, rain leaching, fertilizer input from successful
fertilize actions, then clamp to [0, 1.5]. -/
def update_nutrients_simple (cfg : SoilConfig) (soil : SoilState) (weather : WeatherState)
    (fertilize_actions : List DeviceAction) (plant : Option Plant) : SoilState :=
  let plant_uptake : ℚ :=
    match plant with
    | some pl => if pl.is_alive then cfg.nutrient_consumption_rate * (pl.health / 100) else 0
    | none => 0
  let rain_loss : ℚ := if weather.is_raining then 0.05 else 0
  let fertilizer_input := pot_effect_sum fertilize_actions soil.pot_id
  let nutrient_change := fertilizer_input - plant_uptake - rain_loss
  { soil with nutrients := max 0 (min 1.5 (soil.nutrients + nutrient_change)) }

/-- C4: after the soil update of any step, every pot's moisture lies in
[0, 1.3] and its nutrient level lies in [0, 1.5] (the clamp invariant),
whatever the weather, device actions and plant state. -/
theorem soil_update_clamp_bounds (cfg : SoilConfig) (soil : SoilState)
    (weather : WeatherState) (water_actions fertilize_actions : List DeviceAction)
    (plant : Option Plant) :
    0 ≤ (update_moisture_simple cfg soil weather water_actions plant).moisture ∧
    (update_moisture_simple cfg soil weather water_actions plant).moisture ≤ 1.3 ∧
    0 ≤ (update_nutrients_simple cfg soil weather fertilize_actions plant).nutrients ∧
    (update_nutrients_simple cfg soil weather fertilize_actions plant).nutrients ≤ 1.5 := by
  unfold update_moisture_simple update_nutrients_simple
  refine ⟨le_max_left _ _, max_le (by norm_num) (min_le_left _ _),
    le_max_left _ _, max_le (by norm_num) (min_le_left _ _)⟩

/-! ### Evaluation engine (src/garden_env/simulator.py, class EvaluationEngine) -/

/-- Scoring weight constants (config evaluation.scoring_weights, read in
EvaluationEngine.__init__). -/
structure ScoringWeights where
  total_biomass : ℚ
  plant_health : ℚ
deriving DecidableEq, Repr

/-- Penalty constants (config evaluation.penalties). -/
structure PenaltyConfig where
  plant_death : ℚ
  overwatering : ℚ
  overfertilizing : ℚ
deriving DecidableEq, Repr

/-- EvaluationEngine._calculate_biomass_score (simulator.py lines 319-323). -/
def calculate_biomass_score (plants : List Plant) : ℚ :=
  let total_biomass := (plants.filter (fun p => p.is_alive)).foldl (fun a p => a + p.biomass) 0
  min 100 (total_biomass / 50 * 100)

/-- EvaluationEngine._calculate_health_score (simulator.py lines 325-333). -/
def calculate_health_score (plants : List Plant) : ℚ :=
  if plants = [] then 0
  else
    let alive_plants := plants.filter (fun p => p.is_alive)
    if alive_plants = [] then 0
    else (alive_plants.foldl (fun a p => a + p.health) 0) / alive_plants.length

/-- EvaluationEngine._calculate_penalties_enhanced (simulator.py lines
335-360): death penalty per dead plant, overuse penalties above the 10-water
and 15-fertilize thresholds, and 50 x the excess for every plant whose tracked
soil moisture exceeds 1.0. -/
def calculate_penalties_enhanced (pen : PenaltyConfig) (plants : List Plant)
    (water_actions fertilize_actions : ℕ) : ℚ :=
  let penalty : ℚ := 0
  let dead_plants := (plants.filter (fun p => ¬ p.is_alive)).length
  let penalty := penalty + dead_plants * pen.plant_death
  let penalty :=
    if water_actions > 10 then penalty + ((water_actions : ℚ) - 10) * pen.overwatering else penalty
  let penalty :=
    if fertilize_actions > 15 then penalty + ((fertilize_actions : ℚ) - 15) * pen.overfertilizing
    else penalty
  plants.foldl
    (fun acc p => if p.soil_moisture > 1.0 then acc + (p.soil_moisture - 1.0) * 50 else acc) penalty

/-- EvaluationEngine.calculate_score (simulator.py lines 271-317): weighted
biomass and health components plus the penalty term, floored at zero. The
water/fertilize action counts are the lengths of the device action logs of the
step (lines 307-308 count them the same way). -/
def calculate_score (w : ScoringWeights) (pen : PenaltyConfig) (plants : List Plant)
    (device_water device_fertilize : List DeviceAction) : ℚ :=
  let biomass_score := calculate_biomass_score plants
  let health_score := calculate_health_score plants
  let base_score := biomass_score * w.total_biomass + health_score * w.plant_health
  let penalty := calculate_penalties_enhanced pen plants device_water.length device_fertilize.length
  max 0 (base_score + penalty)

/-! Spec-side formulation of the per-step score, written from the words of the
specification: base_score = weight_biomass x min(100, total_live_biomass/50x100)
+ weight_health x mean health of live plants (0 if none alive); penalty =
dead_plant_count x death_penalty + max(0, water_actions-10) x overwater_penalty
+ max(0, fertilize_actions-15) x overfertilize_penalty
+ sum over plants of max(0, moisture-1.0) x 50; score = max(0, base + penalty). -/

/-- Total biomass of live plants, as the spec words it. -/
def spec_total_live_biomass (plants : List Plant) : ℚ :=
  ((plants.filter (fun p => p.is_alive)).map (fun p => p.biomass)).sum

/-- Mean health of live plants, 0 if none alive, as the spec words it. -/
def spec_mean_live_health (plants : List Plant) : ℚ :=
  let alive := plants.filter (fun p => p.is_alive)
  if alive.length = 0 then 0
  else ((alive.map (fun p => p.health)).sum) / alive.length

/-- Number of dead plants, as the spec words it. -/
def spec_dead_plant_count (plants : List Plant) : ℕ :=
  (plants.filter (fun p => ¬ p.is_alive)).length

/-- Per-step score as the specification states it. -/
def spec_score (w : ScoringWeights) (pen : PenaltyConfig) (plants : List Plant)
    (water_actions fertilize_actions : ℕ) : ℚ :=
  let base_score := w.total_biomass * min 100 (spec_total_live_biomass plants / 50 * 100)
    + w.plant_health * spec_mean_live_health plants
  let penalty := (spec_dead_plant_count plants : ℚ) * pen.plant_death
    + max 0 ((water_actions : ℚ) - 10) * pen.overwatering
    + max 0 ((fertilize_actions : ℚ) - 15) * pen.overfertilizing
    + (plants.map (fun p => max 0 (p.soil_moisture - 1.0) * 50)).sum
  max 0 (base_score + penalty)

/-! Helper lemmas for the score refinement. -/

theorem foldl_add_eq_sum_map {α : Type} (f : α → ℚ) (l : List α) :
    ∀ init : ℚ, l.foldl (fun a x => a + f x) init = init + (l.map f).sum := by
  induction l with
  | nil => intro init; simp
  | cons x xs ih =>
      intro init
      simp only [List.foldl_cons, List.map_cons, List.sum_cons]
      rw [ih]
      ring

theorem foldl_excess_moisture_eq (l : List Plant) :
    ∀ init : ℚ,
      l.foldl (fun acc p => if p.soil_moisture > 1.0 then acc + (p.soil_moisture - 1.0) * 50 else acc)
          init
        = init + (l.map (fun p => max 0 (p.soil_moisture - 1.0) * 50)).sum := by
  induction l with
  | nil => intro init; simp
  | cons x xs ih =>
      intro init
      simp only [List.foldl_cons, List.map_cons, List.sum_cons]
      rw [ih]
      by_cases hx : x.soil_moisture > 1.0
      · rw [if_pos hx, max_eq_right (by linarith : (0 : ℚ) ≤ x.soil_moisture - 1.0)]
        ring
      · rw [if_neg hx, max_eq_left (by push_neg at hx; linarith : x.soil_moisture - 1.0 ≤ (0 : ℚ))]
        ring

theorem overuse_penalty_eq (n k : ℕ) (c : ℚ) :
    (if n > k then ((n : ℚ) - k) * c else 0) = max 0 ((n : ℚ) - k) * c := by
  by_cases h : n > k
  · rw [if_pos h, max_eq_right]
    have : (k : ℚ) < n := by exact_mod_cast h
    linarith
  · rw [if_neg h, max_eq_left, zero_mul]
    have : (n : ℚ) ≤ k := by exact_mod_cast Nat.le_of_not_lt h
    linarith

/-- C3: for every step, the score computed by the evaluation engine equals the
spec formula max(0, base_score + penalty), with base_score = weight_biomass x
min(100, total_live_biomass/50x100) + weight_health x mean live health (0 if
none alive) and penalty = dead_plant_count x death_penalty +
max(0, water_actions-10) x overwater_penalty + max(0, fertilize_actions-15) x
overfertilize_penalty + the per-plant sum of max(0, moisture-1.0) x 50, the
penalty constants entering with their configured (negative) signs. -/
theorem calculate_score_eq_spec (w : ScoringWeights) (pen : PenaltyConfig)
    (plants : List Plant) (device_water device_fertilize : List DeviceAction) :
    calculate_score w pen plants device_water device_fertilize
      = spec_score w pen plants device_water.length device_fertilize.length := by
  unfold calculate_score spec_score
  dsimp only
  congr 1
  have hbio : calculate_biomass_score plants
      = min 100 (spec_total_live_biomass plants / 50 * 100) := by
    unfold calculate_biomass_score spec_total_live_biomass
    rw [foldl_add_eq_sum_map, zero_add]
  have hhealth : calculate_health_score plants = spec_mean_live_health plants := by
    unfold calculate_health_score spec_mean_live_health
    by_cases hp : plants = []
    · subst hp
      simp
    · rw [if_neg hp]
      dsimp only
      by_cases ha : plants.filter (fun p => p.is_alive) = []
      · rw [if_pos ha, ha]
        simp
      · rw [if_neg ha, if_neg (by simpa [List.length_eq_zero] using ha),
          foldl_add_eq_sum_map, zero_add]
  have hpen : calculate_penalties_enhanced pen plants device_water.length device_fertilize.length
      = (spec_dead_plant_count plants : ℚ) * pen.plant_death
        + max 0 ((device_water.length : ℚ) - 10) * pen.overwatering
        + max 0 ((device_fertilize.length : ℚ) - 15) * pen.overfertilizing
        + (plants.map (fun p => max 0 (p.soil_moisture - 1.0) * 50)).sum := by
    unfold calculate_penalties_enhanced spec_dead_plant_count
    dsimp only
    rw [foldl_excess_moisture_eq]
    by_cases hw : device_water.length > 10 <;> by_cases hf : device_fertilize.length > 15
    · have hwq : (0 : ℚ) ≤ (device_water.length : ℚ) - 10 := by
        have : (10 : ℚ) < (device_water.length : ℚ) := by exact_mod_cast hw
        linarith
      have hfq : (0 : ℚ) ≤ (device_fertilize.length : ℚ) - 15 := by
        have : (15 : ℚ) < (device_fertilize.length : ℚ) := by exact_mod_cast hf
        linarith
      rw [if_pos hw, if_pos hf, max_eq_right hwq, max_eq_right hfq]
      ring
    · have hwq : (0 : ℚ) ≤ (device_water.length : ℚ) - 10 := by
        have : (10 : ℚ) < (device_water.length : ℚ) := by exact_mod_cast hw
        linarith
      have hfq : (device_fertilize.length : ℚ) - 15 ≤ (0 : ℚ) := by
        push_neg at hf
        have : (device_fertilize.length : ℚ) ≤ (15 : ℚ) := by exact_mod_cast hf
        linarith
      rw [if_pos hw, if_neg hf, max_eq_right hwq, max_eq_left hfq]
      ring
    · have hwq : (device_water.length : ℚ) - 10 ≤ (0 : ℚ) := by
        push_neg at hw
        have : (device_water.length : ℚ) ≤ (10 : ℚ) := by exact_mod_cast hw
        linarith
      have hfq : (0 : ℚ) ≤ (device_fertilize.length : ℚ) - 15 := by
        have : (15 : ℚ) < (device_fertilize.length : ℚ) := by exact_mod_cast hf
        linarith
      rw [if_neg hw, if_pos hf, max_eq_left hwq, max_eq_right hfq]
      ring
    · have hwq : (device_water.length : ℚ) - 10 ≤ (0 : ℚ) := by
        push_neg at hw
        have : (device_water.length : ℚ) ≤ (10 : ℚ) := by exact_mod_cast hw
        linarith
      have hfq : (device_fertilize.length : ℚ) - 15 ≤ (0 : ℚ) := by
        push_neg at hf
        have : (device_fertilize.length : ℚ) ≤ (15 : ℚ) := by exact_mod_cast hf
        linarith
      rw [if_neg hw, if_neg hf, max_eq_left hwq, max_eq_left hfq]
      ring
  rw [hbio, hhealth, hpen]
  ring

/-! ### Device layer (src/garden_env/objects.py): water pump and fertilizer -/

/-- WaterPump state (objects.py lines 18-28). The fault draw of each call
(random.random() < failure_probability) is passed in explicitly as the
rational value of random.random(). -/
structure WaterPump where
  water_effect : ℚ
  total_water_used : ℚ
  operation_count : ℕ
  is_failed : Bool
  failure_end_step : ℕ
  failure_probability : ℚ
deriving DecidableEq, Repr

/-- WaterPump.irrigate (objects.py lines 30-62): recover when the current step
has reached failure_end_step, then possibly draw a fresh fault — the pump sets
failure_end_step to the constant 1 — and return 0 while failed, else the
configured fixed water_effect (duration is accepted but ignored). -/
def WaterPump.irrigate (s : WaterPump) (pot_id : ℕ) (duration_hours : ℚ)
    (current_step : ℕ) (draw : ℚ) : ℚ × WaterPump :=
  let s := if s.is_failed ∧ s.failure_end_step ≤ current_step then { s with is_failed := false } else s
  let s := if ¬s.is_failed ∧ draw < s.failure_probability then
      { s with is_failed := true, failure_end_step := 1 } else s
  if s.is_failed then (0, s)
  else (s.water_effect,
    { s with total_water_used := s.total_water_used + s.water_effect,
             operation_count := s.operation_count + 1 })

/-- Fertilizer state (objects.py lines 76-86). -/
structure Fertilizer where
  fertilizer_effect : ℚ
  total_fertilizer_used : ℚ
  application_count : ℕ
  is_failed : Bool
  failure_end_step : ℕ
  failure_probability : ℚ
deriving DecidableEq, Repr

/-- Fertilizer.apply_fertilizer (objects.py lines 88-120): same fault state
machine as the pump, but a fresh fault sets failure_end_step to
current_step + randint(3, 8); the randint draw is passed in as d. -/
def Fertilizer.apply_fertilizer (s : Fertilizer) (pot_id : ℕ) (amount : ℚ)
    (current_step : ℕ) (draw : ℚ) (d : ℕ) : ℚ × Fertilizer :=
  let s := if s.is_failed ∧ s.failure_end_step ≤ current_step then { s with is_failed := false } else s
  let s := if ¬s.is_failed ∧ draw < s.failure_probability then
      { s with is_failed := true, failure_end_step := current_step + d } else s
  if s.is_failed then (0, s)
  else (s.fertilizer_effect,
    { s with total_fertilizer_used := s.total_fertilizer_used + s.fertilizer_effect,
             application_count := s.application_count + 1 })

/-- DeviceManager.execute_watering (objects.py lines 280-294): run the pump
and log the call — success or failure — with success = (effect > 0). -/
def execute_watering (s : WaterPump) (pot_id : ℕ) (duration : ℚ) (current_step : ℕ)
    (draw : ℚ) : ℚ × WaterPump × DeviceAction :=
  let r := s.irrigate pot_id duration current_step draw
  (r.1, r.2,
    { pot_id := pot_id, step := current_step, requested := duration,
      actual_effect := r.1, success := decide (0 < r.1) })

/-- DeviceManager.execute_fertilizing (objects.py lines 296-310). -/
def execute_fertilizing (s : Fertilizer) (pot_id : ℕ) (amount : ℚ) (current_step : ℕ)
    (draw : ℚ) (d : ℕ) : ℚ × Fertilizer × DeviceAction :=
  let r := s.apply_fertilizer pot_id amount current_step draw d
  (r.1, r.2,
    { pot_id := pot_id, step := current_step, requested := amount,
      actual_effect := r.1, success := decide (0 < r.1) })

/-! Case lemmas for the device state machines. -/

theorem irrigate_failed_early (s : WaterPump) (pot : ℕ) (dur : ℚ) (step : ℕ) (draw : ℚ)
    (h1 : s.is_failed = true) (h2 : step < s.failure_end_step) :
    s.irrigate pot dur step draw = (0, s) := by
  simp [WaterPump.irrigate, h1, Nat.not_le.mpr h2]

theorem irrigate_recovered (s : WaterPump) (pot : ℕ) (dur : ℚ) (step : ℕ) (draw : ℚ)
    (h1 : s.is_failed = true) (h2 : s.failure_end_step ≤ step)
    (h3 : s.failure_probability ≤ draw) :
    (s.irrigate pot dur step draw).1 = s.water_effect := by
  simp [WaterPump.irrigate, h1, h2, not_lt.mpr h3]

theorem irrigate_operational (s : WaterPump) (pot : ℕ) (dur : ℚ) (step : ℕ) (draw : ℚ)
    (h1 : s.is_failed = false) (h2 : ¬draw < s.failure_probability) :
    s.irrigate pot dur step draw =
      (s.water_effect,
        { s with total_water_used := s.total_water_used + s.water_effect,
                 operation_count := s.operation_count + 1 }) := by
  simp [WaterPump.irrigate, h1, h2]

theorem irrigate_fresh_fault (s : WaterPump) (pot : ℕ) (dur : ℚ) (step : ℕ) (draw : ℚ)
    (h1 : s.is_failed = false) (h2 : draw < s.failure_probability) :
    s.irrigate pot dur step draw =
      (0, { s with is_failed := true, failure_end_step := 1 }) := by
  simp [WaterPump.irrigate, h1, h2]

theorem apply_fertilizer_failed_early (s : Fertilizer) (pot : ℕ) (amt : ℚ) (step : ℕ)
    (draw : ℚ) (d : ℕ) (h1 : s.is_failed = true) (h2 : step < s.failure_end_step) :
    s.apply_fertilizer pot amt step draw d = (0, s) := by
  simp [Fertilizer.apply_fertilizer, h1, Nat.not_le.mpr h2]

theorem apply_fertilizer_recovered (s : Fertilizer) (pot : ℕ) (amt : ℚ) (step : ℕ)
    (draw : ℚ) (d : ℕ) (h1 : s.is_failed = true) (h2 : s.failure_end_step ≤ step)
    (h3 : s.failure_probability ≤ draw) :
    (s.apply_fertilizer pot amt step draw d).1 = s.fertilizer_effect := by
  simp [Fertilizer.apply_fertilizer, h1, h2, not_lt.mpr h3]

theorem apply_fertilizer_fresh_fault (s : Fertilizer) (pot : ℕ) (amt : ℚ) (step : ℕ)
    (draw : ℚ) (d : ℕ) (h1 : s.is_failed = false) (h2 : draw < s.failure_probability) :
    s.apply_fertilizer pot amt step draw d =
      (0, { s with is_failed := true, failure_end_step := step + d }) := by
  simp [Fertilizer.apply_fertilizer, h1, h2]

/-- C5: while a device (pump or dispenser) is failed and the current step is
below its failure_end_step, a call returns effect exactly 0 and is logged
with success = false; at or after failure_end_step the next call recovers the
device and, when the fresh random fault draw does not trigger (draw at or
above the failure probability), it returns the configured effect — succeeding
whenever that effect is positive. -/
theorem failed_device_blocks_until_end
    (p1 : WaterPump) (pot1 : ℕ) (dur1 : ℚ) (step1 : ℕ) (draw1 : ℚ)
    (p2 : WaterPump) (pot2 : ℕ) (dur2 : ℚ) (step2 : ℕ) (draw2 : ℚ)
    (f1 : Fertilizer) (fpot1 : ℕ) (amt1 : ℚ) (fstep1 : ℕ) (fdraw1 : ℚ) (d1 : ℕ)
    (f2 : Fertilizer) (fpot2 : ℕ) (amt2 : ℚ) (fstep2 : ℕ) (fdraw2 : ℚ) (d2 : ℕ) :
    (p1.is_failed = true → step1 < p1.failure_end_step →
      (execute_watering p1 pot1 dur1 step1 draw1).1 = 0 ∧
      (execute_watering p1 pot1 dur1 step1 draw1).2.2.success = false) ∧
    (p2.is_failed = true → p2.failure_end_step ≤ step2 → p2.failure_probability ≤ draw2 →
      (execute_watering p2 pot2 dur2 step2 draw2).1 = p2.water_effect ∧
      (0 < p2.water_effect → (execute_watering p2 pot2 dur2 step2 draw2).2.2.success = true)) ∧
    (f1.is_failed = true → fstep1 < f1.failure_end_step →
      (execute_fertilizing f1 fpot1 amt1 fstep1 fdraw1 d1).1 = 0 ∧
      (execute_fertilizing f1 fpot1 amt1 fstep1 fdraw1 d1).2.2.success = false) ∧
    (f2.is_failed = true → f2.failure_end_step ≤ fstep2 → f2.failure_probability ≤ fdraw2 →
      (execute_fertilizing f2 fpot2 amt2 fstep2 fdraw2 d2).1 = f2.fertilizer_effect ∧
      (0 < f2.fertilizer_effect →
        (execute_fertilizing f2 fpot2 amt2 fstep2 fdraw2 d2).2.2.success = true)) := by
  refine ⟨fun h1 h2 => ?_, fun h1 h2 h3 => ?_, fun h1 h2 => ?_, fun h1 h2 h3 => ?_⟩
  · have heq := irrigate_failed_early p1 pot1 dur1 step1 draw1 h1 h2
    simp [execute_watering, heq]
  · have heq := irrigate_recovered p2 pot2 dur2 step2 draw2 h1 h2 h3
    refine ⟨by simp [execute_watering, heq], fun hwe => ?_⟩
    simp [execute_watering, heq, hwe]
  · have heq := apply_fertilizer_failed_early f1 fpot1 amt1 fstep1 fdraw1 d1 h1 h2
    simp [execute_fertilizing, heq]
  · have heq := apply_fertilizer_recovered f2 fpot2 amt2 fstep2 fdraw2 d2 h1 h2 h3
    refine ⟨by simp [execute_fertilizing, heq], fun hfe => ?_⟩
    simp [execute_fertilizing, heq, hfe]

def blockedPumpW : WaterPump :=
  { water_effect := 1, total_water_used := 0, operation_count := 0,
    is_failed := true, failure_end_step := 1, failure_probability := 0 }

def blockedFertW : Fertilizer :=
  { fertilizer_effect := 1, total_fertilizer_used := 0, application_count := 0,
    is_failed := true, failure_end_step := 7, failure_probability := 0 }

theorem failed_device_blocks_until_end_witness :
    ((execute_watering blockedPumpW 0 1 0 0).1 = 0 ∧
      (execute_watering blockedPumpW 0 1 0 0).2.2.success = false) ∧
    ((execute_watering blockedPumpW 0 1 5 0).1 = blockedPumpW.water_effect ∧
      (execute_watering blockedPumpW 0 1 5 0).2.2.success = true) ∧
    ((execute_fertilizing blockedFertW 0 1 3 0 5).1 = 0 ∧
      (execute_fertilizing blockedFertW 0 1 3 0 5).2.2.success = false) ∧
    ((execute_fertilizing blockedFertW 0 1 9 0 5).1 = blockedFertW.fertilizer_effect ∧
      (execute_fertilizing blockedFertW 0 1 9 0 5).2.2.success = true) := by
  have h := failed_device_blocks_until_end blockedPumpW 0 1 0 0 blockedPumpW 0 1 5 0
    blockedFertW 0 1 3 0 5 blockedFertW 0 1 9 0 5
  refine ⟨h.1 rfl (by decide), ?_, h.2.2.1 rfl (by decide), ?_⟩
  · have h2 := h.2.1 rfl (by decide) (le_refl 0)
    exact ⟨h2.1, h2.2 (by decide)⟩
  · have h4 := h.2.2.2 rfl (by decide) (le_refl 0)
    exact ⟨h4.1, h4.2 (by decide)⟩

def cexPump : WaterPump :=
  { water_effect := 1, total_water_used := 0, operation_count := 0,
    is_failed := false, failure_end_step := 0, failure_probability := 1/2 }

def cexPumpFaulted : WaterPump := (cexPump.irrigate 0 1 5 0).2

/-- C6 counterexample: a pump fault does not last exactly 1 step, and the pump
does not wait for the step following the fault to recover. A fault drawn on a
call at step 5 (draw 0 below failure probability 1/2) sets the literal
failure_end_step = 1, and a second call at the very same step 5 (draw 1/2, no
fresh fault) already recovers the pump and returns the full water effect. -/
theorem pump_fault_not_one_step_cex :
    (cexPump.irrigate 0 1 5 0).1 = 0 ∧
    cexPumpFaulted.is_failed = true ∧
    cexPumpFaulted.failure_end_step = 1 ∧
    (cexPumpFaulted.irrigate 0 1 5 (1/2)).1 = 1 ∧
    (cexPumpFaulted.irrigate 0 1 5 (1/2)).2.is_failed = false :=
  of_decide_eq_true (by with_unfolding_all rfl)

/-- C6 (amended): a fresh pump fault sets failure_end_step to the literal
constant 1 (not fault step + 1), so the faulting call returns 0 and the pump
recovers on the first subsequent call whose step is at least 1 — including
further calls during the very step in which the fault was drawn; only a fault
drawn at step 0 lasts into step 1. A dispenser fault drawn at step s sets
failure_end_step = s + randint(3, 8), lasting 3 to 8 steps. The pump/dispenser
asymmetry is real and is preserved. -/
theorem pump_const_one_dispenser_randint
    (s : WaterPump) (pot : ℕ) (dur : ℚ) (step : ℕ) (draw : ℚ)
    (s2 : WaterPump) (pot2 : ℕ) (dur2 : ℚ) (step2 : ℕ) (draw2 : ℚ)
    (f : Fertilizer) (fpot : ℕ) (amt : ℚ) (fstep : ℕ) (fdraw : ℚ) (d : ℕ) :
    (s.is_failed = false → draw < s.failure_probability →
      (s.irrigate pot dur step draw).1 = 0 ∧
      (s.irrigate pot dur step draw).2.is_failed = true ∧
      (s.irrigate pot dur step draw).2.failure_end_step = 1) ∧
    (s2.is_failed = true → s2.failure_end_step ≤ step2 → s2.failure_probability ≤ draw2 →
      (s2.irrigate pot2 dur2 step2 draw2).1 = s2.water_effect) ∧
    (f.is_failed = false → fdraw < f.failure_probability →
      (f.apply_fertilizer fpot amt fstep fdraw d).1 = 0 ∧
      (f.apply_fertilizer fpot amt fstep fdraw d).2.is_failed = true ∧
      (f.apply_fertilizer fpot amt fstep fdraw d).2.failure_end_step = fstep + d ∧
      (3 ≤ d → d ≤ 8 →
        fstep + 3 ≤ (f.apply_fertilizer fpot amt fstep fdraw d).2.failure_end_step ∧
        (f.apply_fertilizer fpot amt fstep fdraw d).2.failure_end_step ≤ fstep + 8)) := by
  refine ⟨fun h1 h2 => ?_, fun h1 h2 h3 => ?_, fun h1 h2 => ?_⟩
  · have heq := irrigate_fresh_fault s pot dur step draw h1 h2
    simp [heq]
  · exact irrigate_recovered s2 pot2 dur2 step2 draw2 h1 h2 h3
  · have heq := apply_fertilizer_fresh_fault f fpot amt fstep fdraw d h1 h2
    refine ⟨by simp [heq], by simp [heq], by simp [heq], fun hd3 hd8 => ?_⟩
    simp only [heq]
    omega

def freshPumpW : WaterPump :=
  { water_effect := 1, total_water_used := 0, operation_count := 0,
    is_failed := false, failure_end_step := 0, failure_probability := 1 }

def freshFertW : Fertilizer :=
  { fertilizer_effect := 1, total_fertilizer_used := 0, application_count := 0,
    is_failed := false, failure_end_step := 0, failure_probability := 1 }

theorem pump_const_one_dispenser_randint_witness :
    ((freshPumpW.irrigate 0 1 5 0).1 = 0 ∧
      (freshPumpW.irrigate 0 1 5 0).2.is_failed = true ∧
      (freshPumpW.irrigate 0 1 5 0).2.failure_end_step = 1) ∧
    (blockedPumpW.irrigate 0 1 1 0).1 = blockedPumpW.water_effect ∧
    ((freshFertW.apply_fertilizer 0 1 2 0 5).1 = 0 ∧
      (freshFertW.apply_fertilizer 0 1 2 0 5).2.is_failed = true ∧
      (freshFertW.apply_fertilizer 0 1 2 0 5).2.failure_end_step = 2 + 5 ∧
      (2 + 3 ≤ (freshFertW.apply_fertilizer 0 1 2 0 5).2.failure_end_step ∧
        (freshFertW.apply_fertilizer 0 1 2 0 5).2.failure_end_step ≤ 2 + 8)) := by
  have h := pump_const_one_dispenser_randint freshPumpW 0 1 5 0 blockedPumpW 0 1 1 0
    freshFertW 0 1 2 0 5
  refine ⟨h.1 rfl (by decide), h.2.1 rfl (by decide) (le_refl 0), ?_⟩
  have h3 := h.2.2 rfl (by decide)
  exact ⟨h3.1, h3.2.1, h3.2.2.1, h3.2.2.2 (by decide) (by decide)⟩

/-! ### Sequences of watering requests through the device manager -/

/-- One watering request as issued through DeviceManager.execute_watering:
the step of the call, the target pot, the requested duration, and the value
of the random fault draw consumed by that call. -/
structure WaterRequest where
  step : ℕ
  pot_id : ℕ
  duration : ℚ
  draw : ℚ
deriving DecidableEq, Repr

/-- Repeated DeviceManager.execute_watering calls: thread the pump state
through the request list and collect the logged actions in order. -/
def run_pump (s : WaterPump) : List WaterRequest → List DeviceAction × WaterPump
  | [] => ([], s)
  | r :: rest =>
      let e := execute_watering s r.pot_id r.duration r.step r.draw
      let tail := run_pump e.2.1 rest
      (e.2.2 :: tail.1, tail.2)

/-- C7: with the pump failure probability forced to 0, every watering request
with positive duration succeeds on every call — the logged actual effect is
always the configured constant water effect and the success flag is true —
for any number of calls at any steps (fault draws are the values of
random.random(), hence nonnegative). -/
theorem zero_failure_prob_watering_all_succeed (s : WaterPump) (reqs : List WaterRequest)
    (hfail : s.is_failed = false) (hprob : s.failure_probability = 0)
    (hwe : 0 < s.water_effect)
    (hdur : ∀ r ∈ reqs, 0 < r.duration) (hdraw : ∀ r ∈ reqs, 0 ≤ r.draw) :
    ∀ a ∈ (run_pump s reqs).1, a.actual_effect = s.water_effect ∧ a.success = true := by
  induction reqs generalizing s with
  | nil =>
      intro a ha
      simp [run_pump] at ha
  | cons r rest ih =>
      intro a ha
      have hnd : ¬r.draw < s.failure_probability := by
        rw [hprob]
        exact not_lt.mpr (hdraw r (List.mem_cons_self r rest))
      have heq := irrigate_operational s r.pot_id r.duration r.step r.draw hfail hnd
      rw [show run_pump s (r :: rest) =
          (let e := execute_watering s r.pot_id r.duration r.step r.draw
           let tail := run_pump e.2.1 rest
           (e.2.2 :: tail.1, tail.2)) from rfl] at ha
      simp only [execute_watering, heq] at ha
      rcases List.mem_cons.mp ha with h | h
      · subst h
        exact ⟨rfl, decide_eq_true hwe⟩
      · have htail := ih { s with total_water_used := s.total_water_used + s.water_effect, operation_count := s.operation_count + 1 } hfail hprob hwe
          (fun q hq => hdur q (List.mem_cons_of_mem r hq))
          (fun q hq => hdraw q (List.mem_cons_of_mem r hq)) a h
        exact htail

def reliablePumpW : WaterPump :=
  { water_effect := 2, total_water_used := 0, operation_count := 0,
    is_failed := false, failure_end_step := 0, failure_probability := 0 }

def reliableReqsW : List WaterRequest :=
  [{ step := 0, pot_id := 0, duration := 1, draw := 0 },
   { step := 3, pot_id := 4, duration := 1, draw := 0 }]

theorem zero_failure_prob_watering_all_succeed_witness :
    (run_pump reliablePumpW reliableReqsW).1.Forall
      (fun a => a.actual_effect = reliablePumpW.water_effect ∧ a.success = true) :=
  List.forall_iff_forall_mem.mpr
    (zero_failure_prob_watering_all_succeed reliablePumpW reliableReqsW rfl rfl
      (by decide) (by decide) (by decide))

/-! ### Orchestrator device-action pipeline and final report
(src/garden_env/simulator.py, GardenSimulator._execute_device_actions and
GardenSimulator._generate_final_report) -/

/-- One watering request in student_decisions["water"]
(simulator.py line 593). -/
structure WaterDecision where
  pot_id : ℕ
  duration : ℚ
deriving DecidableEq, Repr

/-- One fertilize request in student_decisions["fertilize"]
(simulator.py line 595). -/
structure FertilizeDecision where
  pot_id : ℕ
  amount : ℚ
deriving DecidableEq, Repr

/-- The per-step student_decisions dict (simulator.py line 562). -/
structure StudentDecisions where
  water : List WaterDecision
  fertilize : List FertilizeDecision
deriving DecidableEq, Repr

/-- The watering loop of _execute_device_actions (simulator.py lines 607-620):
one logged device action per water decision, success or not, threading the
shared pump. The per-call fault draws are consumed from a stream. -/
def execute_water_decisions (pump : WaterPump) (ds : List WaterDecision) (step : ℕ)
    (draws : List ℚ) : List DeviceAction × WaterPump :=
  match ds with
  | [] => ([], pump)
  | d :: rest =>
      let e := execute_watering pump d.pot_id d.duration step (draws.headD 1)
      let tail := execute_water_decisions e.2.1 rest step draws.tail
      (e.2.2 :: tail.1, tail.2)

/-- The fertilizing loop of _execute_device_actions (simulator.py lines
623-636); each call consumes one random.random() draw and, on a fresh fault,
one randint(3, 8) draw. -/
def execute_fertilize_decisions (fert : Fertilizer) (ds : List FertilizeDecision) (step : ℕ)
    (draws : List (ℚ × ℕ)) : List DeviceAction × Fertilizer :=
  match ds with
  | [] => ([], fert)
  | d :: rest =>
      let pr := draws.headD (1, 3)
      let e := execute_fertilizing fert d.pot_id d.amount step pr.1 pr.2
      let tail := execute_fertilize_decisions e.2.1 rest step draws.tail
      (e.2.2 :: tail.1, tail.2)

/-- GardenSimulator._execute_device_actions (simulator.py lines 602-638). -/
def execute_device_actions (pump : WaterPump) (fert : Fertilizer) (dec : StudentDecisions)
    (step : ℕ) (pumpDraws : List ℚ) (fertDraws : List (ℚ × ℕ)) :
    (List DeviceAction × List DeviceAction) × WaterPump × Fertilizer :=
  let w := execute_water_decisions pump dec.water step pumpDraws
  let f := execute_fertilize_decisions fert dec.fertilize step fertDraws
  ((w.1, f.1), w.2, f.2)

/-- The slice of a StepResult that the final report reads (simulator.py
lines 545-554): the step, the policy's requested actions and the logged
device actions. -/
structure StepRecord where
  step : ℕ
  student_decisions : StudentDecisions
  device_water : List DeviceAction
  device_fertilize : List DeviceAction
deriving DecidableEq, Repr

/-- The step loop restricted to the device pipeline: at each step run
_execute_device_actions on that step's decisions and record the results,
threading the shared pump and dispenser. -/
def run_device_steps (pump : WaterPump) (fert : Fertilizer) (step : ℕ) :
    List (StudentDecisions × List ℚ × List (ℚ × ℕ)) → List StepRecord
  | [] => []
  | (dec, pd, fd) :: rest =>
      let e := execute_device_actions pump fert dec step pd fd
      { step := step, student_decisions := dec,
        device_water := e.1.1, device_fertilize := e.1.2 }
        :: run_device_steps e.2.1 e.2.2 (step + 1) rest

/-- total_water_actions of the final report (simulator.py line 670): the sum
over all steps of the number of requested water decisions. -/
def report_total_water_actions (results : List StepRecord) : ℕ :=
  (results.map (fun r => r.student_decisions.water.length)).sum

/-- total_fertilize_actions of the final report (simulator.py line 671). -/
def report_total_fertilize_actions (results : List StepRecord) : ℕ :=
  (results.map (fun r => r.student_decisions.fertilize.length)).sum

/-- Sum over all steps of the per-step logged device_actions water entries. -/
def logged_water_action_count (results : List StepRecord) : ℕ :=
  (results.map (fun r => r.device_water.length)).sum

/-- Sum over all steps of the per-step logged device_actions fertilize
entries. -/
def logged_fertilize_action_count (results : List StepRecord) : ℕ :=
  (results.map (fun r => r.device_fertilize.length)).sum

theorem execute_water_decisions_length (ds : List WaterDecision) :
    ∀ (pump : WaterPump) (step : ℕ) (draws : List ℚ),
      (execute_water_decisions pump ds step draws).1.length = ds.length := by
  induction ds with
  | nil => intro pump step draws; rfl
  | cons d rest ih =>
      intro pump step draws
      simp only [execute_water_decisions, List.length_cons]
      rw [ih]

theorem execute_fertilize_decisions_length (ds : List FertilizeDecision) :
    ∀ (fert : Fertilizer) (step : ℕ) (draws : List (ℚ × ℕ)),
      (execute_fertilize_decisions fert ds step draws).1.length = ds.length := by
  induction ds with
  | nil => intro fert step draws; rfl
  | cons d rest ih =>
      intro fert step draws
      simp only [execute_fertilize_decisions, List.length_cons]
      rw [ih]

/-- C9: over any complete run of the device pipeline, the summed per-step
logged device_actions counts equal the final report's total_water_actions and
total_fertilize_actions figures — every requested action, successful or
failed, is logged exactly once. -/
theorem logged_action_counts_match_report (pump : WaterPump) (fert : Fertilizer)
    (step : ℕ) (steps : List (StudentDecisions × List ℚ × List (ℚ × ℕ))) :
    logged_water_action_count (run_device_steps pump fert step steps)
        = report_total_water_actions (run_device_steps pump fert step steps) ∧
    logged_fertilize_action_count (run_device_steps pump fert step steps)
        = report_total_fertilize_actions (run_device_steps pump fert step steps) := by
  induction steps generalizing pump fert step with
  | nil => exact ⟨rfl, rfl⟩
  | cons x rest ih =>
      rcases x with ⟨dec, pd, fd⟩
      have hw := execute_water_decisions_length dec.water pump step pd
      have hf := execute_fertilize_decisions_length dec.fertilize fert step fd
      unfold run_device_steps logged_water_action_count report_total_water_actions
        logged_fertilize_action_count report_total_fertilize_actions
      simp only [List.map_cons, List.sum_cons, execute_device_actions]
      have ihr := ih ((execute_water_decisions pump dec.water step pd).2)
        ((execute_fertilize_decisions fert dec.fertilize step fd).2) (step + 1)
      unfold logged_water_action_count report_total_water_actions
        logged_fertilize_action_count report_total_fertilize_actions at ihr
      exact ⟨by rw [hw, ihr.1], by rw [hf, ihr.2]⟩

/-! ### Sensor array fault lifecycle (src/garden_env/objects.py, SensorArray) -/

/-- Membership of a pot in the sensor_failures dict (the Python test
`pot_id in self.sensor_failures`). The dict is modelled as an association
list pot_id -> failure_end_step. -/
def hasPot (fails : List (ℕ × ℕ)) (pot : ℕ) : Bool :=
  fails.any (fun pr => pr.1 == pot)

/-- The recovery sweep at the top of SensorArray.get_readings (objects.py
lines 158-164): every pot whose failure_end_step has been reached is removed
before any readings are generated. -/
def recover_failures (fails : List (ℕ × ℕ)) (current_step : ℕ) : List (ℕ × ℕ) :=
  fails.filter (fun pr => decide (current_step < pr.2))

/-- The fresh-fault loop of SensorArray.get_readings (objects.py lines
167-171): each non-failed pot draws a fault with the configured probability;
on trigger its failure_end_step is set to current_step + 1 (the literal
failure_duration = 1). draws gives the random.random() value drawn for each
pot index. -/
def trigger_faults (fails : List (ℕ × ℕ)) (pots : List ℕ) (current_step : ℕ)
    (draws : ℕ → ℚ) (prob : ℚ) : List (ℕ × ℕ) :=
  match pots with
  | [] => fails
  | pot :: rest =>
      let fails := if hasPot fails pot = false ∧ draws pot < prob then
          fails ++ [(pot, current_step + 1)]
        else fails
      trigger_faults fails rest current_step draws prob

/-- The sensor_failures map in force while the readings of a step are
generated: the stored map after the recovery sweep and the fresh-fault loop
(objects.py lines 157-177). -/
def sensor_failures_at_reading (fails : List (ℕ × ℕ)) (numPots current_step : ℕ)
    (draws : ℕ → ℚ) (prob : ℚ) : List (ℕ × ℕ) :=
  trigger_faults (recover_failures fails current_step) (List.range numPots)
    current_step draws prob

/-- Which branch of the reading generation a pot takes (objects.py lines
175-191): a failed pot gets a fault-archetype reading, otherwise an error
draw below sensor_error_probability gives an error reading, otherwise the
true state is reported. -/
inductive ReadingKind where
  | fault
  | error
  | normal
deriving DecidableEq, Repr

/-- Branch selector of get_readings for one pot. -/
def reading_kind_for_pot (fails_at_reading : List (ℕ × ℕ)) (errDraw errProb : ℚ)
    (pot : ℕ) : ReadingKind :=
  if hasPot fails_at_reading pot then ReadingKind.fault
  else if errDraw < errProb then ReadingKind.error
  else ReadingKind.normal

theorem hasPot_false_no_entry (fails : List (ℕ × ℕ)) (pot : ℕ)
    (h : hasPot fails pot = false) : ∀ pr ∈ fails, pr.1 ≠ pot := by
  intro pr hm hp
  have : fails.any (fun pr => pr.1 == pot) = true :=
    List.any_eq_true.mpr ⟨pr, hm, beq_iff_eq.mpr hp⟩
  rw [hasPot] at h
  rw [h] at this
  exact Bool.false_ne_true this

theorem trigger_faults_keeps_hasPot (pots : List ℕ) (current_step : ℕ)
    (draws : ℕ → ℚ) (prob : ℚ) (pot : ℕ) :
    ∀ fails : List (ℕ × ℕ), hasPot fails pot = true →
      hasPot (trigger_faults fails pots current_step draws prob) pot = true := by
  induction pots with
  | nil => intro fails h; exact h
  | cons q rest ih =>
      intro fails h
      unfold trigger_faults
      dsimp only
      split
      · apply ih
        rw [hasPot, List.any_append]
        rw [hasPot] at h
        rw [h]
        rfl
      · exact ih fails h

theorem trigger_faults_end_inv (pots : List ℕ) (current_step : ℕ)
    (draws : ℕ → ℚ) (prob : ℚ) (pot : ℕ) :
    ∀ fails : List (ℕ × ℕ), (∀ pr ∈ fails, pr.1 = pot → pr.2 = current_step + 1) →
      ∀ pr ∈ trigger_faults fails pots current_step draws prob,
        pr.1 = pot → pr.2 = current_step + 1 := by
  induction pots with
  | nil => intro fails h; exact h
  | cons q rest ih =>
      intro fails h
      unfold trigger_faults
      dsimp only
      split
      · apply ih
        intro pr hm hp
        rcases List.mem_append.mp hm with hin | hnew
        · exact h pr hin hp
        · rcases List.mem_singleton.mp hnew with rfl
          rfl
      · exact ih fails h

theorem trigger_faults_adds (pots : List ℕ) (current_step : ℕ)
    (draws : ℕ → ℚ) (prob : ℚ) (pot : ℕ) (hdraw : draws pot < prob) :
    ∀ fails : List (ℕ × ℕ), pot ∈ pots → hasPot fails pot = false →
      hasPot (trigger_faults fails pots current_step draws prob) pot = true := by
  induction pots with
  | nil => intro fails h; exact absurd h (List.not_mem_nil pot)
  | cons q rest ih =>
      intro fails hmem hfalse
      unfold trigger_faults
      dsimp only
      by_cases hq : q = pot
      · subst hq
        rw [if_pos ⟨hfalse, hdraw⟩]
        apply trigger_faults_keeps_hasPot
        rw [hasPot, List.any_append]
        simp [hasPot]
      · have hrest : pot ∈ rest := by
          rcases List.mem_cons.mp hmem with h | h
          · exact absurd h.symm hq
          · exact h
        split
        · apply ih _ hrest
          rw [hasPot, List.any_append]
          rw [hasPot] at hfalse
          rw [hfalse]
          simp [hq]
        · exact ih fails hrest hfalse

theorem recover_failures_removes (fails : List (ℕ × ℕ)) (pot : ℕ) (s2 : ℕ)
    (h : ∀ pr ∈ fails, pr.1 = pot → pr.2 ≤ s2) :
    hasPot (recover_failures fails s2) pot = false := by
  rw [hasPot]
  cases hb : (recover_failures fails s2).any (fun pr => pr.1 == pot) with
  | false => rfl
  | true =>
      exfalso
      rcases List.any_eq_true.mp hb with ⟨pr, hm, hp⟩
      have hmem := List.mem_filter.mp hm
      have hlt : s2 < pr.2 := of_decide_eq_true hmem.2
      have hle : pr.2 ≤ s2 := h pr hmem.1 (beq_iff_eq.mp hp)
      omega

/-- C10: a sensor fault entered at step s sets that pot's failure_end_step to
s + 1, so every sensor fault episode lasts exactly one step. On the step the
fault is drawn, the pot's reading is generated by the fault branch; on any
later reading step the recovery sweep removes the pot from the failure map
before readings are generated, so the episode contributes no further
fault-mode readings (any later fault reading belongs to a fresh episode). -/
theorem sensor_fault_episode_one_step (fails : List (ℕ × ℕ)) (numPots : ℕ)
    (s s2 : ℕ) (draws : ℕ → ℚ) (prob errDraw errProb : ℚ) (pot : ℕ)
    (hpot : pot < numPots)
    (hnot : hasPot (recover_failures fails s) pot = false)
    (hdraw : draws pot < prob)
    (hnext : s < s2) :
    (∀ pr ∈ sensor_failures_at_reading fails numPots s draws prob,
        pr.1 = pot → pr.2 = s + 1) ∧
    hasPot (sensor_failures_at_reading fails numPots s draws prob) pot = true ∧
    reading_kind_for_pot (sensor_failures_at_reading fails numPots s draws prob)
        errDraw errProb pot = ReadingKind.fault ∧
    hasPot (recover_failures (sensor_failures_at_reading fails numPots s draws prob) s2)
        pot = false := by
  have hentries : ∀ pr ∈ sensor_failures_at_reading fails numPots s draws prob,
      pr.1 = pot → pr.2 = s + 1 := by
    apply trigger_faults_end_inv
    intro pr hm hp
    exact absurd hp (hasPot_false_no_entry _ pot hnot pr hm)
  have hin : hasPot (sensor_failures_at_reading fails numPots s draws prob) pot = true :=
    trigger_faults_adds (List.range numPots) s draws prob pot hdraw _
      (List.mem_range.mpr hpot) hnot
  refine ⟨hentries, hin, ?_, ?_⟩
  · rw [reading_kind_for_pot, if_pos hin]
  · apply recover_failures_removes
    intro pr hm hp
    rw [hentries pr hm hp]
    omega

theorem sensor_fault_episode_one_step_witness :
    (sensor_failures_at_reading [] 5 3 (fun _ => 0) 1).Forall
        (fun pr => pr.1 = 2 → pr.2 = 3 + 1) ∧
    hasPot (sensor_failures_at_reading [] 5 3 (fun _ => 0) 1) 2 = true ∧
    reading_kind_for_pot (sensor_failures_at_reading [] 5 3 (fun _ => 0) 1) 0 0 2
        = ReadingKind.fault ∧
    hasPot (recover_failures (sensor_failures_at_reading [] 5 3 (fun _ => 0) 1) 4) 2
        = false := by
  have h := sensor_fault_episode_one_step [] 5 3 4 (fun _ => 0) 1 0 0 2
    (by decide) (by decide) (by decide) (by decide)
  exact ⟨List.forall_iff_forall_mem.mpr h.1, h.2.1, h.2.2.1, h.2.2.2⟩

/-! ### Weather generator construction (src/garden_env/weather.py) -/

/-- The weather section of the configuration (config weather.netherlands_july,
read in WeatherGenerator.__init__, weather.py lines 19-30). -/
structure WeatherConfig where
  temp_mean : ℚ
  temp_amplitude : ℚ
  temp_noise_std : ℚ
  rain_probability_per_day : ℚ
deriving DecidableEq, Repr

/-- WeatherGenerator state after construction (weather.py lines 19-34). -/
structure WeatherGenerator where
  temp_mean : ℚ
  temp_amplitude : ℚ
  temp_noise_std : ℚ
  rain_probability : ℚ
  rain_amount : ℚ
  current_step : ℕ
  weather_history : List WeatherState
deriving DecidableEq, Repr

/-- WeatherGenerator.__init__ (weather.py lines 19-34). The constructor
accepts a random_seed argument, but the body's only use of it — the
random.seed(random_seed) call — is commented out in the source, so the
argument is discarded and no part of the constructed state (nor any later
random draw) depends on it. -/
def WeatherGenerator.init (config : WeatherConfig) (random_seed : ℕ) : WeatherGenerator :=
  { temp_mean := config.temp_mean,
    temp_amplitude := config.temp_amplitude,
    temp_noise_std := config.temp_noise_std,
    rain_probability := config.rain_probability_per_day,
    rain_amount := 8,
    current_step := 0,
    weather_history := [] }

/-- C8 (code evidence): the configured random seed has no effect — the
WeatherGenerator built from any two seeds is identical, because the
random.seed call in its constructor (like the one in GardenSimulator.__init__)
is commented out in the source. Consequently the simulation draws from the
unseeded process-global random stream, and fixing simulation.random_seed in
the configuration does not make two runs reproduce the same score
trajectory, contrary to the claim. -/
theorem weather_generator_ignores_seed (config : WeatherConfig) (seed1 seed2 : ℕ) :
    WeatherGenerator.init config seed1 = WeatherGenerator.init config seed2 := rfl
